import Mathlib

/-
Verification development for the cinema ticket booking repository
(Next.js frontend under src/frontend and src/unnamed, Django backend
described by docs and the design spec but not present in the sources).

Frontend code is embedded faithfully from:
  - src/frontend/lib/api.ts        (HTTP client wrappers, error mapping)
  - src/unnamed/part_005           (context/cinema-context.tsx: cinemaReducer)
  - src/unnamed/part_002           (components/confirmacion.tsx: handlePagar)
  - src/unnamed/part_003           (components/asientos.tsx: handleConfirmarSeleccion)

The backend REST endpoints (create/pay/seat-map) are not in the sources;
where a claim needs them they are modelled from the spec and marked
`Modelled from the spec:` in their doc comments.
-/

/- JavaScript string helpers, modelled on the character list so that they
compute by kernel reduction.  `toUpperStr` is `String.prototype.toUpperCase`
restricted to the alphabetic labels used here; `trimStr` is
`String.prototype.trim` (whitespace stripped from both ends). -/

def toUpperStr (s : String) : String := ⟨s.data.map Char.toUpper⟩

def trimStr (s : String) : String :=
  ⟨((s.data.dropWhile Char.isWhitespace).reverse.dropWhile Char.isWhitespace).reverse⟩

/- ---------- Data types of lib/api.ts and context/cinema-context.tsx ---------- -/

/-- Seat status `"libre" | "reservada" | "pagada"` (interface Asiento). -/
inductive EstadoAsiento
  | libre
  | reservada
  | pagada
deriving DecidableEq, Repr

/-- Interface `Asiento` of lib/api.ts and the cinema context. -/
structure Asiento where
  fila : String
  numero : Nat
  estado : EstadoAsiento
deriving DecidableEq, Repr

/-- Ticket status `"reservada" | "pagada"` (interface Entrada). -/
inductive EstadoEntrada
  | reservada
  | pagada
deriving DecidableEq, Repr

/-- Interface `Entrada`: union of the fields of lib/api.ts and of the cinema
context (the optional display fields of the context are kept as options). -/
structure Entrada where
  id : Nat
  sesion : Nat
  fila : String
  numero : Nat
  email : String
  estado : EstadoEntrada
  pelicula : Option String
  hora : Option String
  sala : Option String
  etiqueta_asiento : Option String
deriving DecidableEq, Repr

/-- Failure delivered by axios to a catch block: the HTTP status of the
response when one arrived (`error.response?.status`), none for connectivity
failures, together with the transported diagnostic message. -/
structure ApiError where
  status : Option Nat
  mensaje : String
deriving DecidableEq, Repr

/- ---------- lib/api.ts : crearEntrada / pagarEntrada ---------- -/

/-- Function `crearEntrada` of lib/api.ts, as a function of the outcome of the
`POST /entradas/` request: on success the created Entrada is returned; in the
catch block a status of 400 or 409 is mapped to the message
"Ese asiento ya no está disponible" and every other failure to
"Error al crear la reserva". -/
def crearEntrada (resp : Except ApiError Entrada) : Except String Entrada :=
  match resp with
  | .ok data => .ok data
  | .error e =>
    if e.status == some 400 || e.status == some 409 then
      .error "Ese asiento ya no está disponible"
    else
      .error "Error al crear la reserva"

/-- Function `pagarEntrada` of lib/api.ts, as a function of the outcome of the
`POST /entradas/{id}/pagar/` request: every failure is replaced by the message
"Error al procesar el pago". -/
def pagarEntrada (resp : Except ApiError Entrada) : Except String Entrada :=
  match resp with
  | .ok data => .ok data
  | .error _ => .error "Error al procesar el pago"

/- ---------- lib/api.ts : the list-fetching helpers over loose JSON ---------- -/

/-- Untyped JSON value, the `any` that lib/api.ts receives from axios. -/
inductive JVal
  | null
  | bool (b : Bool)
  | num (n : Int)
  | str (s : String)
  | arr (elems : List JVal)
  | obj (fields : List (String × JVal))

/-- Member access `v.campo` on a JSON value: a field lookup on objects,
undefined (none) on everything else. -/
def jGet (v : JVal) (campo : String) : Option JVal :=
  match v with
  | .obj fields => (fields.find? (fun kv => kv.1 == campo)).map (fun kv => kv.2)
  | _ => none

/-- JavaScript falsiness (`!data`): null/undefined, false, 0 and "" are falsy. -/
def falsy (v : JVal) : Bool :=
  match v with
  | .null => true
  | .bool false => true
  | .num 0 => true
  | .str "" => true
  | _ => false

/-- Predicate `Array.isArray`. -/
def isArray (v : JVal) : Bool :=
  match v with
  | .arr _ => true
  | _ => false

/-- Function `unwrap` of lib/api.ts: `[]` for falsy data, the array itself for
an array, the `results` field when it is an array, `[]` otherwise. -/
def unwrap (data : JVal) : List JVal :=
  if falsy data then []
  else
    match data with
    | .arr xs => xs
    | _ =>
      match jGet data "results" with
      | some (.arr rs) => rs
      | _ => []

/-- Function `getPeliculas` of lib/api.ts as a function of the request
outcome: the whole body is inside try/catch, so a failed request yields `[]`
and a successful one yields `unwrap data`. -/
def getPeliculas (resp : Except ApiError JVal) : List JVal :=
  match resp with
  | .error _ => []
  | .ok data => unwrap data

/-- Function `getSesiones` of lib/api.ts as a function of the request outcome
(the outbound parameter renaming does not affect the response handling):
`[]` on failure, `unwrap data` on success. -/
def getSesiones (resp : Except ApiError JVal) : List JVal :=
  match resp with
  | .error _ => []
  | .ok data => unwrap data

/-- Function `getAsientos` of lib/api.ts as a function of the request outcome.
On success, `data?.layout || []` is iterated and the rows that are arrays are
concatenated; iterating a string visits its characters (none of which is an
array) and iterating any other non-array value throws a TypeError which the
surrounding catch turns into `[]`.  Every failure path yields `[]`. -/
def getAsientos (resp : Except ApiError JVal) : List JVal :=
  match resp with
  | .error _ => []
  | .ok data =>
    let layout : JVal :=
      match jGet data "layout" with
      | some v => if falsy v then .arr [] else v
      | none => .arr []
    match layout with
    | .arr filas => (filas.filterMap (fun f => match f with | .arr celdas => some celdas | _ => none)).flatten
    | _ => []

/- ---------- Spec-modelled backend (Ticket Lifecycle Manager) ---------- -/

namespace Backend

/-- Ticket state, `Reserved` or `Paid` (spec §3). -/
inductive TicketState
  | Reserved
  | Paid
deriving DecidableEq, Repr

/-- Modelled from the spec: a Ticket references a Showing and has a seat
coordinate (row label, column number), a contact email and a state (spec §3).
An id is included because `pay(ticketId)` addresses tickets by id. -/
structure Ticket where
  id : Nat
  showing : Nat
  row : String
  column : Nat
  email : String
  state : TicketState
deriving DecidableEq, Repr

/-- Modelled from the spec: a Showing has a grid shape (rowCount, columnCount)
fixed at creation (spec §3). -/
structure Showing where
  id : Nat
  rowCount : Nat
  columnCount : Nat
deriving DecidableEq, Repr

/-- Modelled from the spec: the transactional store behind the Manager,
holding the Showings and the existing Tickets (spec §6). -/
structure Store where
  showings : List Showing
  tickets : List Ticket
deriving DecidableEq, Repr

/-- Error taxonomy of spec §7: ValidationError, SeatConflict, NotFound. -/
inductive Fallo
  | ValidationError
  | SeatConflict
  | NotFound
deriving DecidableEq, Repr

/-- HTTP status each failure kind maps to externally (spec §4.1, §7):
ValidationError → 400, SeatConflict → 409, NotFound → 404. -/
def statusHTTP : Fallo → Nat
  | .ValidationError => 400
  | .SeatConflict => 409
  | .NotFound => 404

/-- Row label of the r-th row (0-based): the (r+1)-th letter of the alphabet,
as used by the seat map and by row validation (spec §3). -/
def filaLabel (r : Nat) : String := ⟨[Char.ofNat (65 + r)]⟩

/-- Modelled from the spec: the row label, after uppercasing, must fall within
the first rowCount letters of the alphabet (spec §3, §4.1). -/
def filaValida (sh : Showing) (fila : String) : Bool :=
  (List.range sh.rowCount).any (fun r => filaLabel r == toUpperStr fila)

/-- Modelled from the spec: operation reserve(showingId, row, column, email)
of the Ticket Lifecycle Manager (spec §4.1).  Local validation (column in
[1, columnCount], row within range after uppercasing, email non-empty) fails
with ValidationError before the uniqueness check; a missing Showing is
NotFound; an occupied (showing, row, column) triple fails atomically with
SeatConflict; otherwise a Ticket in state Reserved is inserted with the row
normalized to uppercase. -/
def reserve (st : Store) (showingId : Nat) (fila : String) (numero : Nat) (email : String) :
    Except Fallo (Ticket × Store) :=
  match st.showings.find? (fun s => s.id == showingId) with
  | none => .error .NotFound
  | some sh =>
    if email.isEmpty || numero == 0 || decide (sh.columnCount < numero) || !filaValida sh fila then
      .error .ValidationError
    else if st.tickets.any (fun t =>
        t.showing == showingId && t.row == toUpperStr fila && t.column == numero) then
      .error .SeatConflict
    else
      let t : Ticket :=
        { id := st.tickets.length + 1, showing := showingId, row := toUpperStr fila,
          column := numero, email := email, state := .Reserved }
      .ok (t, { st with tickets := st.tickets ++ [t] })

/-- Modelled from the spec: operation pay(ticketId) of the Ticket Lifecycle
Manager (spec §4.2): NotFound for a missing ticket; a Ticket already Paid is
returned unchanged; a Reserved Ticket transitions to Paid and is persisted. -/
def pagar (st : Store) (ticketId : Nat) : Except Fallo (Ticket × Store) :=
  match st.tickets.find? (fun t => t.id == ticketId) with
  | none => .error .NotFound
  | some t =>
    match t.state with
    | .Paid => .ok (t, st)
    | .Reserved =>
      let t' : Ticket := { t with state := .Paid }
      .ok (t', { st with tickets := st.tickets.map (fun u => if u.id == ticketId then t' else u) })

/-- Modelled from the spec: the per-cell status of the seat-map projection,
derived by joining the grid with the Tickets of the Showing (spec §4.1):
free when no ticket occupies the coordinate, otherwise that ticket's state. -/
def estadoCelda (st : Store) (showingId : Nat) (fila : String) (numero : Nat) : EstadoAsiento :=
  match st.tickets.find? (fun t => t.showing == showingId && t.row == fila && t.column == numero) with
  | none => .libre
  | some t =>
    match t.state with
    | .Reserved => .reservada
    | .Paid => .pagada

/-- Modelled from the spec: the seat-map read path, `get-seat-map` (spec §4.1):
a rowCount × columnCount structure, one row per row label, one cell per column
number, each cell carrying the coordinate and its status.  This is the
`layout` the frontend receives. -/
def mapaAsientos (st : Store) (sh : Showing) : List (List Asiento) :=
  (List.range sh.rowCount).map (fun r =>
    (List.range sh.columnCount).map (fun c =>
      { fila := filaLabel r, numero := c + 1, estado := estadoCelda st sh.id (filaLabel r) (c + 1) }))

end Backend

/-- Seat-collection loop of `getAsientos` (lib/api.ts lines 136-139) on a
layout that is a list of seat rows: each row is an array in this typed view,
so `if (Array.isArray(fila)) asientos.push(...fila)` appends every row. -/
def getAsientosDeLayout (layout : List (List Asiento)) : List Asiento :=
  layout.foldl (fun asientos fila => asientos ++ fila) []

/- ---------- context/cinema-context.tsx (src/unnamed/part_005) ---------- -/

/-- Interface `Pelicula` of the cinema context. -/
structure Pelicula where
  id : Nat
  titulo : String
  poster : Option String
  clasificacion : Option String
deriving DecidableEq, Repr

/-- Interface `Sesion` of the cinema context. -/
structure Sesion where
  id : Nat
  pelicula_id : Nat
  fecha : String
  hora : String
  sala : String
  disponibles : Nat
  total : Nat
deriving DecidableEq, Repr

/-- Interface `CinemaState` of the cinema context. -/
structure CinemaState where
  pelicula : Option Pelicula
  sesion : Option Sesion
  asientosSeleccionados : List Asiento
  entradasCreadas : List Entrada
deriving DecidableEq, Repr

/-- Union type `CinemaAction` of the cinema context. -/
inductive CinemaAction
  | setPelicula (payload : Pelicula)
  | setSesion (payload : Sesion)
  | toggleAsiento (payload : Asiento)
  | clearAsientos
  | setEntradasCreadas (payload : List Entrada)
  | reset

/-- Constant `initialState` of the cinema context. -/
def initialState : CinemaState :=
  { pelicula := none, sesion := none, asientosSeleccionados := [], entradasCreadas := [] }

/-- Seat coordinate test used inside TOGGLE_ASIENTO:
`a.fila === action.payload.fila && a.numero === action.payload.numero`. -/
def mismoAsiento (a b : Asiento) : Bool :=
  a.fila == b.fila && a.numero == b.numero

/-- Function `cinemaReducer` of the cinema context: SET_PELICULA, SET_SESION,
TOGGLE_ASIENTO (remove the coordinate when present via `find`, otherwise
append), CLEAR_ASIENTOS, SET_ENTRADAS_CREADAS and RESET. -/
def cinemaReducer (state : CinemaState) (action : CinemaAction) : CinemaState :=
  match action with
  | .setPelicula p => { state with pelicula := some p }
  | .setSesion s => { state with sesion := some s }
  | .toggleAsiento a =>
    match state.asientosSeleccionados.find? (fun x => mismoAsiento x a) with
    | some _ =>
      { state with asientosSeleccionados :=
          state.asientosSeleccionados.filter (fun x => !(mismoAsiento x a)) }
    | none =>
      { state with asientosSeleccionados := state.asientosSeleccionados ++ [a] }
  | .clearAsientos => { state with asientosSeleccionados := [] }
  | .setEntradasCreadas es => { state with entradasCreadas := es }
  | .reset => initialState

/-- Dispatch of a whole action sequence from a starting state. -/
def aplicarAcciones (acts : List CinemaAction) : CinemaState :=
  acts.foldl cinemaReducer initialState

/-- Coordinate projection of the selected seats of a state. -/
def coordsSeleccionadas (s : CinemaState) : List (String × Nat) :=
  s.asientosSeleccionados.map (fun a => (a.fila, a.numero))

/-- Selection-uniqueness invariant: at most one selected entry per
(fila, numero) pair. -/
def selUnica (s : CinemaState) : Prop :=
  (coordsSeleccionadas s).Nodup

instance (s : CinemaState) : Decidable (selUnica s) := by
  unfold selUnica; infer_instance

/- ---------- components/confirmacion.tsx (src/unnamed/part_002) ---------- -/

/-- State update of `handlePagar` (confirmacion.tsx lines 27-29): after a
successful `pagarEntrada`, map over `state.entradasCreadas` replacing the
entry whose id matches with a copy whose estado is "pagada". -/
def marcarPagada (entradaId : Nat) (entradas : List Entrada) : List Entrada :=
  entradas.map (fun entrada =>
    if entrada.id == entradaId then { entrada with estado := .pagada } else entrada)

/- ---------- components/asientos.tsx (src/unnamed/part_003) ---------- -/

/-- Translation of a backend Ticket to the Entrada the frontend receives from
`POST /entradas/` (field names of the wire format of lib/api.ts). -/
def entradaDeTicket (t : Backend.Ticket) : Entrada :=
  { id := t.id, sesion := t.showing, fila := t.row, numero := t.column,
    email := t.email,
    estado := match t.state with | .Reserved => .reservada | .Paid => .pagada,
    pelicula := none, hora := none, sala := none, etiqueta_asiento := none }

/-- One `crearEntrada` call against the spec-modelled backend: the server runs
`reserve` (atomically — on failure the store is unchanged), the HTTP layer
turns a failure into its status code, and the client-side catch of
`crearEntrada` maps the outcome as in lib/api.ts. -/
def crearEntradaVia (store : Backend.Store) (sesionId : Nat) (fila : String)
    (numero : Nat) (email : String) : Backend.Store × Except String Entrada :=
  match Backend.reserve store sesionId fila numero email with
  | .ok (t, store') => (store', crearEntrada (.ok (entradaDeTicket t)))
  | .error f => (store, crearEntrada (.error { status := some (Backend.statusHTTP f), mensaje := "" }))

/-- Reservation loop of `handleConfirmarSeleccion` (asientos.tsx lines 74-97):
one `crearEntrada` per selected seat, accumulating the created entries with
`entradas.push(entrada)`; the first failure aborts the loop and reports the
error message, leaving the already-created server tickets as they are. -/
def runReservas (sesionId : Nat) (email : String) :
    Backend.Store → List Asiento → List Entrada → Backend.Store × Except String (List Entrada)
  | store, [], acc => (store, .ok acc)
  | store, asiento :: resto, acc =>
    match crearEntradaVia store sesionId asiento.fila asiento.numero email with
    | (store', .ok entrada) => runReservas sesionId email store' resto (acc ++ [entrada])
    | (store', .error msg) => (store', .error msg)

/-- Result of a `handleConfirmarSeleccion` submission: the store after the
server-side effects, the client state after the dispatched actions, and the
error message shown to the user (none on success). -/
structure ConfirmResult where
  store : Backend.Store
  state : CinemaState
  errorMsg : Option String
deriving DecidableEq, Repr

/-- Function `handleConfirmarSeleccion` of asientos.tsx (lines 57-112): guard
on an empty selection and an empty trimmed email; run one `crearEntrada` per
selected seat; on any failure set the error and return with the context state
untouched (the seat map is merely refetched); on success dispatch
SET_ENTRADAS_CREADAS with the created entries and CLEAR_ASIENTOS.  The demo
flag is omitted: the modelled server never returns `simulated`. -/
def handleConfirmarSeleccion (store : Backend.Store) (st : CinemaState)
    (sesionId : Nat) (email : String) : ConfirmResult :=
  if st.asientosSeleccionados.isEmpty then
    { store := store, state := st, errorMsg := some "Debe seleccionar al menos un asiento" }
  else if (trimStr email).isEmpty then
    { store := store, state := st, errorMsg := some "El email es requerido" }
  else
    match runReservas sesionId (trimStr email) store st.asientosSeleccionados [] with
    | (store', .error msg) => { store := store', state := st, errorMsg := some msg }
    | (store', .ok entradas) =>
      { store := store',
        state := cinemaReducer (cinemaReducer st (.setEntradasCreadas entradas)) .clearAsientos,
        errorMsg := none }

/-- Decidable equality on Except, so that the concrete results of the embedded
operations can be checked by evaluation. -/
instance {ε α : Type} [DecidableEq ε] [DecidableEq α] : DecidableEq (Except ε α) := fun x y =>
  match x, y with
  | .ok a, .ok b =>
    if h : a = b then .isTrue (congrArg Except.ok h)
    else .isFalse (fun hh => h (Except.ok.inj hh))
  | .error a, .error b =>
    if h : a = b then .isTrue (congrArg Except.error h)
    else .isFalse (fun hh => h (Except.error.inj hh))
  | .ok _, .error _ => .isFalse (fun hh => Except.noConfusion hh)
  | .error _, .ok _ => .isFalse (fun hh => Except.noConfusion hh)

/- ==================== Claim theorems ==================== -/

/-- Claim C1, counterexample: two create-ticket inputs against the same store,
one failing validation (column 0 → 400) and one failing on seat conflict
(occupied seat → 409), produce the exact same error result from crearEntrada,
so the error reported to the caller does not distinguish the two cases. -/
theorem c1_contraejemplo :
    Backend.reserve ⟨[⟨1, 2, 2⟩], [⟨1, 1, "A", 1, "z@z.com", .Reserved⟩]⟩ 1 "A" 0 "x@y.com"
      = .error .ValidationError ∧
    Backend.reserve ⟨[⟨1, 2, 2⟩], [⟨1, 1, "A", 1, "z@z.com", .Reserved⟩]⟩ 1 "A" 1 "x@y.com"
      = .error .SeatConflict ∧
    (crearEntradaVia ⟨[⟨1, 2, 2⟩], [⟨1, 1, "A", 1, "z@z.com", .Reserved⟩]⟩ 1 "A" 0 "x@y.com").2
      = (crearEntradaVia ⟨[⟨1, 2, 2⟩], [⟨1, 1, "A", 1, "z@z.com", .Reserved⟩]⟩ 1 "A" 1 "x@y.com").2 ∧
    (crearEntradaVia ⟨[⟨1, 2, 2⟩], [⟨1, 1, "A", 1, "z@z.com", .Reserved⟩]⟩ 1 "A" 0 "x@y.com").2
      = .error "Ese asiento ya no está disponible" := by
  decide

/-- Claim C1, amended: crearEntrada collapses the 400 and the 409 case into
the one message "Ese asiento ya no está disponible"; the only distinction it
preserves is between those two statuses on the one hand and every other
failure (mapped to "Error al crear la reserva") on the other. -/
theorem c1_crearEntrada_colapsa_400_409 :
    (∀ e : ApiError, e.status = some 400 ∨ e.status = some 409 →
      crearEntrada (.error e) = .error "Ese asiento ya no está disponible") ∧
    (∀ e : ApiError, e.status ≠ some 400 → e.status ≠ some 409 →
      crearEntrada (.error e) = .error "Error al crear la reserva") := by
  constructor
  · intro e h
    rcases h with h | h <;> simp [crearEntrada, h]
  · intro e h1 h2
    simp [crearEntrada, h1, h2]

/-- Claim C1, witness for the amended theorem at two concrete failures. -/
theorem c1_testigo :
    crearEntrada (.error ⟨some 409, ""⟩) = .error "Ese asiento ya no está disponible" ∧
    crearEntrada (.error ⟨none, "ECONNREFUSED"⟩) = .error "Error al crear la reserva" :=
  ⟨c1_crearEntrada_colapsa_400_409.1 ⟨some 409, ""⟩ (Or.inr rfl),
   c1_crearEntrada_colapsa_400_409.2 ⟨none, "ECONNREFUSED"⟩ (by decide) (by decide)⟩

/-- Claim C5, counterexample: a connectivity failure (no HTTP status, axios
message "Network Error") is not surfaced unmodified: crearEntrada masks it as
"Error al crear la reserva" and pagarEntrada masks it as
"Error al procesar el pago". -/
theorem c5_contraejemplo :
    crearEntrada (.error ⟨none, "Network Error"⟩) = .error "Error al crear la reserva" ∧
    crearEntrada (.error ⟨none, "Network Error"⟩) ≠ .error "Network Error" ∧
    pagarEntrada (.error ⟨none, "Network Error"⟩) = .error "Error al procesar el pago" ∧
    pagarEntrada (.error ⟨none, "Network Error"⟩) ≠ .error "Network Error" := by
  decide

/-- Claim C5, amended: far from propagating them unmodified, crearEntrada maps
every failure other than 400/409 to the generic "Error al crear la reserva",
and pagarEntrada maps every failure whatsoever to "Error al procesar el pago". -/
theorem c5_fallos_enmascarados :
    (∀ e : ApiError, e.status ≠ some 400 → e.status ≠ some 409 →
      crearEntrada (.error e) = .error "Error al crear la reserva") ∧
    (∀ e : ApiError, pagarEntrada (.error e) = .error "Error al procesar el pago") := by
  constructor
  · intro e h1 h2
    simp [crearEntrada, h1, h2]
  · intro e
    rfl

/-- Claim C5, witness for the amended theorem at a concrete timeout failure. -/
theorem c5_testigo :
    crearEntrada (.error ⟨none, "timeout"⟩) = .error "Error al crear la reserva" ∧
    pagarEntrada (.error ⟨some 500, "boom"⟩) = .error "Error al procesar el pago" :=
  ⟨c5_fallos_enmascarados.1 ⟨none, "timeout"⟩ (by decide) (by decide),
   c5_fallos_enmascarados.2 ⟨some 500, "boom"⟩⟩

/-- Claim C3: the pay operation is idempotent.  Server side (spec-modelled
pagar): a ticket already Paid is returned unchanged with the store untouched.
Client side (handlePagar of confirmacion.tsx): applying the mark-as-pagada
map twice for the same id yields the same entradasCreadas list as once. -/
theorem c3_pago_idempotente :
    (∀ (st : Backend.Store) (ticketId : Nat) (t : Backend.Ticket),
      st.tickets.find? (fun u => u.id == ticketId) = some t →
      t.state = .Paid →
      Backend.pagar st ticketId = .ok (t, st)) ∧
    (∀ (entradaId : Nat) (l : List Entrada),
      marcarPagada entradaId (marcarPagada entradaId l) = marcarPagada entradaId l) := by
  constructor
  · intro st ticketId t hfind hpaid
    simp only [Backend.pagar, hfind]
    rw [hpaid]
  · intro entradaId l
    induction l with
    | nil => rfl
    | cons e resto ih =>
      by_cases h : e.id = entradaId
      · simp [marcarPagada, h] at ih ⊢
        exact ih
      · simp [marcarPagada, h] at ih ⊢
        exact ih

/-- Claim C3, witness: a concrete store whose only ticket is already Paid, and
a concrete double application of the client-side update. -/
theorem c3_testigo :
    Backend.pagar ⟨[⟨1, 2, 2⟩], [⟨7, 1, "A", 1, "x@y.com", .Paid⟩]⟩ 7
      = .ok (⟨7, 1, "A", 1, "x@y.com", .Paid⟩, ⟨[⟨1, 2, 2⟩], [⟨7, 1, "A", 1, "x@y.com", .Paid⟩]⟩) ∧
    marcarPagada 7 (marcarPagada 7 [⟨7, 1, "A", 1, "x@y.com", .reservada, none, none, none, none⟩])
      = marcarPagada 7 [⟨7, 1, "A", 1, "x@y.com", .reservada, none, none, none, none⟩] :=
  ⟨c3_pago_idempotente.1 ⟨[⟨1, 2, 2⟩], [⟨7, 1, "A", 1, "x@y.com", .Paid⟩]⟩ 7
      ⟨7, 1, "A", 1, "x@y.com", .Paid⟩ (by decide) rfl,
   c3_pago_idempotente.2 7 [⟨7, 1, "A", 1, "x@y.com", .reservada, none, none, none, none⟩]⟩

/-- Claim C4: paying changes only the estado field.  For every entradasCreadas
list and ticket id, the client-side update of handlePagar keeps the length,
replaces the entries carrying that id with a copy identical except for estado
(so fila, numero, sesion and email are untouched), set to "pagada", and leaves
every entry with a different id entirely unchanged. -/
theorem c4_pago_solo_cambia_estado :
    ∀ (entradaId : Nat) (l : List Entrada) (i : Nat) (e : Entrada),
      l[i]? = some e →
      (marcarPagada entradaId l).length = l.length ∧
      (e.id = entradaId →
        (marcarPagada entradaId l)[i]? = some { e with estado := .pagada } ∧
        ∃ e', (marcarPagada entradaId l)[i]? = some e' ∧
          e'.estado = .pagada ∧ e'.id = e.id ∧ e'.fila = e.fila ∧ e'.numero = e.numero ∧
          e'.sesion = e.sesion ∧ e'.email = e.email) ∧
      (e.id ≠ entradaId → (marcarPagada entradaId l)[i]? = some e) := by
  intro entradaId l i e hget
  refine ⟨by simp [marcarPagada], ?_, ?_⟩
  · intro hid
    have h1 : (marcarPagada entradaId l)[i]? = some { e with estado := .pagada } := by
      simp [marcarPagada, List.getElem?_map, hget, hid]
    exact ⟨h1, { e with estado := .pagada }, h1, rfl, rfl, rfl, rfl, rfl, rfl⟩
  · intro hid
    simp [marcarPagada, List.getElem?_map, hget, hid]

/-- Claim C4, witness: a two-entry list where the first entry carries the paid
id and the second a different id. -/
theorem c4_testigo :
    (marcarPagada 1 [⟨1, 5, "A", 1, "x@y.com", .reservada, none, none, none, none⟩,
                     ⟨2, 5, "B", 2, "x@y.com", .reservada, none, none, none, none⟩])[0]?
      = some ⟨1, 5, "A", 1, "x@y.com", .pagada, none, none, none, none⟩ ∧
    (marcarPagada 1 [⟨1, 5, "A", 1, "x@y.com", .reservada, none, none, none, none⟩,
                     ⟨2, 5, "B", 2, "x@y.com", .reservada, none, none, none, none⟩])[1]?
      = some ⟨2, 5, "B", 2, "x@y.com", .reservada, none, none, none, none⟩ :=
  ⟨((c4_pago_solo_cambia_estado 1
      [⟨1, 5, "A", 1, "x@y.com", .reservada, none, none, none, none⟩,
       ⟨2, 5, "B", 2, "x@y.com", .reservada, none, none, none, none⟩] 0
      ⟨1, 5, "A", 1, "x@y.com", .reservada, none, none, none, none⟩ rfl).2.1 rfl).1,
   (c4_pago_solo_cambia_estado 1
      [⟨1, 5, "A", 1, "x@y.com", .reservada, none, none, none, none⟩,
       ⟨2, 5, "B", 2, "x@y.com", .reservada, none, none, none, none⟩] 1
      ⟨2, 5, "B", 2, "x@y.com", .reservada, none, none, none, none⟩ rfl).2.2 (by decide)⟩

/-- Claim C10: the list-fetching client functions are total and never reject.
Every request failure yields [] from getPeliculas, getSesiones and
getAsientos; unwrap yields [] on every payload that is neither an array nor
an object whose results field is an array; and the list fetchers therefore
also yield [] on such non-list-shaped successful payloads. -/
theorem c10_listas_totales :
    (∀ e : ApiError, getPeliculas (.error e) = [] ∧ getSesiones (.error e) = [] ∧
      getAsientos (.error e) = []) ∧
    (∀ d : JVal, isArray d = false → (∀ rs, jGet d "results" ≠ some (JVal.arr rs)) →
      unwrap d = []) ∧
    (∀ d : JVal, isArray d = false → (∀ rs, jGet d "results" ≠ some (JVal.arr rs)) →
      getPeliculas (.ok d) = [] ∧ getSesiones (.ok d) = []) := by
  have hunwrap : ∀ d : JVal, isArray d = false → (∀ rs, jGet d "results" ≠ some (JVal.arr rs)) →
      unwrap d = [] := by
    intro d hA hR
    unfold unwrap
    by_cases hf : falsy d
    · simp [hf]
    · simp only [hf, if_false, Bool.false_eq_true]
      cases d with
      | arr xs => simp [isArray] at hA
      | null => rfl
      | bool b => rfl
      | num n => rfl
      | str s => rfl
      | obj fields =>
        cases hres : jGet (.obj fields) "results" with
        | none => simp [hres]
        | some v =>
          cases v with
          | arr rs => exact absurd hres (hR rs)
          | null => simp [hres]
          | bool b => simp [hres]
          | num n => simp [hres]
          | str s => simp [hres]
          | obj fs => simp [hres]
  exact ⟨fun e => ⟨rfl, rfl, rfl⟩, hunwrap,
    fun d hA hR => ⟨by simp [getPeliculas, hunwrap d hA hR],
                    by simp [getSesiones, hunwrap d hA hR]⟩⟩

/-- Claim C10, witness: a connectivity failure and a non-list payload, both
yielding the empty list. -/
theorem c10_testigo :
    getPeliculas (.error ⟨none, "Network Error"⟩) = [] ∧
    unwrap (.obj [("detail", .str "Not found")]) = [] ∧
    getPeliculas (.ok (.obj [("detail", .str "Not found")])) = [] :=
  ⟨(c10_listas_totales.1 ⟨none, "Network Error"⟩).1,
   c10_listas_totales.2.1 (.obj [("detail", .str "Not found")]) rfl
     (fun rs h => by simp [jGet] at h),
   (c10_listas_totales.2.2 (.obj [("detail", .str "Not found")]) rfl
     (fun rs h => by simp [jGet] at h)).1⟩

/- Helper lemmas about the TOGGLE_ASIENTO branch. -/

/-- Bridge between the boolean coordinate test of the reducer and the
propositional coordinate equality. -/
lemma mismoAsiento_iff (x a : Asiento) :
    mismoAsiento x a = true ↔ x.fila = a.fila ∧ x.numero = a.numero := by
  simp [mismoAsiento]

/-- Coordinate reflexivity of the reducer's test. -/
lemma mismoAsiento_self (a : Asiento) : mismoAsiento a a = true := by
  simp [mismoAsiento]

/-- Reduction of TOGGLE_ASIENTO when the coordinate is absent: the seat is
appended. -/
lemma cinemaReducer_toggle_none (s : CinemaState) (a : Asiento)
    (h : s.asientosSeleccionados.find? (fun x => mismoAsiento x a) = none) :
    cinemaReducer s (.toggleAsiento a)
      = { s with asientosSeleccionados := s.asientosSeleccionados ++ [a] } := by
  simp [cinemaReducer, h]

/-- Reduction of TOGGLE_ASIENTO when the coordinate is present: every entry
with that coordinate is filtered out. -/
lemma cinemaReducer_toggle_some (s : CinemaState) (a b : Asiento)
    (h : s.asientosSeleccionados.find? (fun x => mismoAsiento x a) = some b) :
    cinemaReducer s (.toggleAsiento a)
      = { s with asientosSeleccionados :=
            s.asientosSeleccionados.filter (fun x => !(mismoAsiento x a)) } := by
  simp [cinemaReducer, h]

/-- Result of `find` over an appended fresh seat: when no existing selected
seat shares the coordinate, the search over the extended list finds exactly
the appended seat. -/
lemma find?_append_self (l : List Asiento) (a : Asiento)
    (h : ∀ x ∈ l, mismoAsiento x a = false) :
    (l ++ [a]).find? (fun x => mismoAsiento x a) = some a := by
  induction l with
  | nil => simp [List.find?, mismoAsiento_self]
  | cons y resto ih =>
    have hy : mismoAsiento y a = false := h y (by simp)
    simp only [List.cons_append, List.find?, hy]
    exact ih (fun x hx => h x (by simp [hx]))

/-- Claim C9: seat-selection toggling is a round trip.  From any state
satisfying the selection-uniqueness invariant, toggling a seat whose
coordinate is not currently selected appends exactly that seat at the end,
and toggling it a second time restores the original selection list. -/
theorem c9_toggle_ida_y_vuelta :
    ∀ (s : CinemaState) (a : Asiento),
      selUnica s →
      (∀ x ∈ s.asientosSeleccionados, ¬(x.fila = a.fila ∧ x.numero = a.numero)) →
      (cinemaReducer s (.toggleAsiento a)).asientosSeleccionados
        = s.asientosSeleccionados ++ [a] ∧
      (cinemaReducer (cinemaReducer s (.toggleAsiento a)) (.toggleAsiento a)).asientosSeleccionados
        = s.asientosSeleccionados := by
  intro s a _ hfuera
  have hfalse : ∀ x ∈ s.asientosSeleccionados, mismoAsiento x a = false := by
    intro x hx
    cases hmb : mismoAsiento x a with
    | false => rfl
    | true => exact absurd ((mismoAsiento_iff x a).mp hmb) (hfuera x hx)
  have hfind : s.asientosSeleccionados.find? (fun x => mismoAsiento x a) = none :=
    List.find?_eq_none.mpr (fun x hx => by simp [hfalse x hx])
  have hprimera := cinemaReducer_toggle_none s a hfind
  have hfind2 : ({ s with asientosSeleccionados := s.asientosSeleccionados ++ [a] } :
      CinemaState).asientosSeleccionados.find? (fun x => mismoAsiento x a) = some a :=
    find?_append_self _ a hfalse
  refine ⟨by rw [hprimera], ?_⟩
  rw [hprimera, cinemaReducer_toggle_some _ a a hfind2]
  show (s.asientosSeleccionados ++ [a]).filter (fun x => !(mismoAsiento x a))
      = s.asientosSeleccionados
  rw [List.filter_append]
  have h1 : s.asientosSeleccionados.filter (fun x => !(mismoAsiento x a))
      = s.asientosSeleccionados :=
    List.filter_eq_self.mpr (fun x hx => by simp [hfalse x hx])
  have h2 : ([a] : List Asiento).filter (fun x => !(mismoAsiento x a)) = [] := by
    simp [List.filter, mismoAsiento_self]
  rw [h1, h2, List.append_nil]

/-- Claim C9, witness: one selected seat, toggling a different coordinate. -/
theorem c9_testigo :
    (cinemaReducer ⟨none, none, [⟨"A", 1, .libre⟩], []⟩
        (.toggleAsiento ⟨"A", 2, .libre⟩)).asientosSeleccionados
      = [⟨"A", 1, .libre⟩, ⟨"A", 2, .libre⟩] ∧
    (cinemaReducer (cinemaReducer ⟨none, none, [⟨"A", 1, .libre⟩], []⟩
        (.toggleAsiento ⟨"A", 2, .libre⟩))
        (.toggleAsiento ⟨"A", 2, .libre⟩)).asientosSeleccionados
      = [⟨"A", 1, .libre⟩] :=
  c9_toggle_ida_y_vuelta ⟨none, none, [⟨"A", 1, .libre⟩], []⟩ ⟨"A", 2, .libre⟩
    (by decide) (by decide)

/-- Preservation of the selection-uniqueness invariant by one reducer step. -/
lemma selUnica_preservada (s : CinemaState) (a : CinemaAction) (h : selUnica s) :
    selUnica (cinemaReducer s a) := by
  cases a with
  | setPelicula p => exact h
  | setSesion s' => exact h
  | setEntradasCreadas es => exact h
  | clearAsientos => simp [cinemaReducer, selUnica, coordsSeleccionadas]
  | reset => simp [cinemaReducer, selUnica, coordsSeleccionadas, initialState]
  | toggleAsiento a =>
    cases hfind : s.asientosSeleccionados.find? (fun x => mismoAsiento x a) with
    | some b =>
      rw [cinemaReducer_toggle_some s a b hfind]
      exact List.Nodup.sublist (List.Sublist.map _ (List.filter_sublist _)) h
    | none =>
      rw [cinemaReducer_toggle_none s a hfind]
      have hnotmem : (a.fila, a.numero) ∉ coordsSeleccionadas s := by
        intro hmem
        rcases List.mem_map.mp hmem with ⟨x, hx, hcoord⟩
        have hp : mismoAsiento x a = true := by
          rw [mismoAsiento_iff]
          exact ⟨congrArg Prod.fst hcoord, congrArg Prod.snd hcoord⟩
        exact (List.find?_eq_none.mp hfind x hx) hp
      show ((s.asientosSeleccionados ++ [a]).map (fun x => (x.fila, x.numero))).Nodup
      rw [List.map_append, List.nodup_append]
      refine ⟨h, List.nodup_singleton _, ?_⟩
      intro c hc hc2
      rcases List.mem_singleton.mp hc2 with rfl
      exact hnotmem hc

/-- Preservation of the invariant along a whole action sequence. -/
lemma selUnica_foldl (acts : List CinemaAction) :
    ∀ s, selUnica s → selUnica (acts.foldl cinemaReducer s) := by
  induction acts with
  | nil => intro s h; exact h
  | cons a resto ih => intro s h; exact ih _ (selUnica_preservada s a h)

/-- Claim C8: in every CinemaState reachable from initialState by any action
sequence, asientosSeleccionados holds at most one entry per (fila, numero)
pair, and every single reducer action preserves this uniqueness invariant. -/
theorem c8_seleccion_sin_duplicados :
    (∀ (s : CinemaState) (a : CinemaAction), selUnica s → selUnica (cinemaReducer s a)) ∧
    (∀ acts : List CinemaAction, selUnica (aplicarAcciones acts)) :=
  ⟨selUnica_preservada,
   fun acts => selUnica_foldl acts initialState (by simp [selUnica, coordsSeleccionadas, initialState])⟩

/-- Claim C8, witness: one preservation step from a concrete valid state. -/
theorem c8_testigo :
    selUnica (cinemaReducer ⟨none, none, [⟨"A", 1, .libre⟩], []⟩
      (.toggleAsiento ⟨"B", 3, .libre⟩)) :=
  c8_seleccion_sin_duplicados.1 ⟨none, none, [⟨"A", 1, .libre⟩], []⟩
    (.toggleAsiento ⟨"B", 3, .libre⟩) (by decide)

/- Helper lemmas about the reservation batch. -/

/-- Failure shape of crearEntrada: a failed request always becomes some error
message. -/
lemma crearEntrada_error_es_error (e : ApiError) :
    ∃ msg, crearEntrada (.error e) = .error msg := by
  simp only [crearEntrada]
  split
  · exact ⟨_, rfl⟩
  · exact ⟨_, rfl⟩

/-- Inversion of a successful crearEntradaVia call: it comes from a successful
atomic reserve, whose output store the call passes through. -/
lemma crearEntradaVia_ok {store store' : Backend.Store} {sid : Nat} {f : String} {n : Nat}
    {em : String} {entrada : Entrada}
    (h : crearEntradaVia store sid f n em = (store', .ok entrada)) :
    ∃ t, Backend.reserve store sid f n em = .ok (t, store') ∧ entrada = entradaDeTicket t := by
  unfold crearEntradaVia at h
  cases hres : Backend.reserve store sid f n em with
  | ok p =>
    obtain ⟨t, stt⟩ := p
    simp only [hres, crearEntrada, Prod.mk.injEq, Except.ok.injEq] at h
    obtain ⟨h1, h2⟩ := h
    subst h1
    exact ⟨t, rfl, h2.symm⟩
  | error fl =>
    simp only [hres] at h
    obtain ⟨msg, hmsg⟩ := crearEntrada_error_es_error ⟨some (Backend.statusHTTP fl), ""⟩
    rw [hmsg] at h
    simp only [Prod.mk.injEq] at h
    exact absurd h.2 (by simp)

/-- Inversion of a failed crearEntradaVia call: the store is passed back
unchanged (the reserve either failed atomically or never produced an error
on the success path). -/
lemma crearEntradaVia_error {store store' : Backend.Store} {sid : Nat} {f : String} {n : Nat}
    {em msg : String}
    (h : crearEntradaVia store sid f n em = (store', .error msg)) :
    store' = store := by
  unfold crearEntradaVia at h
  cases hres : Backend.reserve store sid f n em with
  | ok p =>
    obtain ⟨t, stt⟩ := p
    simp only [hres, crearEntrada, Prod.mk.injEq] at h
    exact absurd h.2 (by simp)
  | error fl =>
    simp only [hres] at h
    obtain ⟨msg2, hmsg⟩ := crearEntrada_error_es_error ⟨some (Backend.statusHTTP fl), ""⟩
    rw [hmsg] at h
    simp only [Prod.mk.injEq] at h
    exact h.1.symm

/-- Successful reserve appends exactly the new ticket to the store. -/
lemma reserve_ok_tickets {st : Backend.Store} {sid : Nat} {f : String} {n : Nat} {em : String}
    {t : Backend.Ticket} {st' : Backend.Store}
    (h : Backend.reserve st sid f n em = .ok (t, st')) :
    st'.tickets = st.tickets ++ [t] := by
  unfold Backend.reserve at h
  cases hfind : st.showings.find? (fun s => s.id == sid) with
  | none =>
    simp only [hfind] at h
    exact absurd h (by simp)
  | some sh =>
    simp only [hfind] at h
    by_cases hval : (em.isEmpty || n == 0 || decide (sh.columnCount < n)
        || !Backend.filaValida sh f) = true
    · rw [if_pos hval] at h
      exact absurd h (by simp)
    · rw [if_neg hval] at h
      by_cases hconf : (st.tickets.any (fun u =>
          u.showing == sid && u.row == toUpperStr f && u.column == n)) = true
      · rw [if_pos hconf] at h
        exact absurd h (by simp)
      · rw [if_neg hconf] at h
        simp only [Except.ok.injEq, Prod.mk.injEq] at h
        obtain ⟨h1, h2⟩ := h
        rw [← h2, ← h1]

/-- The reservation loop only ever appends tickets to the store, whatever the
outcome: no rollback path exists. -/
lemma runReservas_solo_crece (sesionId : Nat) (email : String) :
    ∀ (seats : List Asiento) (store : Backend.Store) (acc : List Entrada),
      ∃ nuevos, (runReservas sesionId email store seats acc).1.tickets
        = store.tickets ++ nuevos := by
  intro seats
  induction seats with
  | nil =>
    intro store acc
    exact ⟨[], by simp [runReservas]⟩
  | cons a resto ih =>
    intro store acc
    rcases hc : crearEntradaVia store sesionId a.fila a.numero email with ⟨store', res⟩
    cases res with
    | ok entrada =>
      obtain ⟨t, hres, -⟩ := crearEntradaVia_ok hc
      obtain ⟨nuevos, hn⟩ := ih store' (acc ++ [entrada])
      refine ⟨t :: nuevos, ?_⟩
      simp only [runReservas, hc]
      rw [hn, reserve_ok_tickets hres]
      simp
    | error msg =>
      refine ⟨[], ?_⟩
      simp only [runReservas, hc]
      rw [crearEntradaVia_error hc]
      simp

/-- Claim C2, counterexample: a two-seat batch whose second seat is already
taken fails, yet the ticket created by the first iteration persists in the
store after the failure is reported (there is no rollback). -/
theorem c2_contraejemplo :
    (handleConfirmarSeleccion
        ⟨[⟨1, 2, 2⟩], [⟨1, 1, "A", 2, "z@z.com", .Reserved⟩]⟩
        ⟨none, none, [⟨"A", 1, .libre⟩, ⟨"A", 2, .libre⟩], []⟩
        1 "x@y.com").errorMsg = some "Ese asiento ya no está disponible" ∧
    (handleConfirmarSeleccion
        ⟨[⟨1, 2, 2⟩], [⟨1, 1, "A", 2, "z@z.com", .Reserved⟩]⟩
        ⟨none, none, [⟨"A", 1, .libre⟩, ⟨"A", 2, .libre⟩], []⟩
        1 "x@y.com").store.tickets
      = [⟨1, 1, "A", 2, "z@z.com", .Reserved⟩, ⟨2, 1, "A", 1, "x@y.com", .Reserved⟩] ∧
    (⟨2, 1, "A", 1, "x@y.com", .Reserved⟩ : Backend.Ticket)
      ∉ ([⟨1, 1, "A", 2, "z@z.com", .Reserved⟩] : List Backend.Ticket) := by
  decide

/-- Claim C2, amended: when any crearEntrada call of the batch fails, the
client state is left entirely unchanged (in particular entradasCreadas gains
no partial ticket), but the store is not rolled back: it keeps every prior
ticket plus the tickets created by the earlier iterations of the batch. -/
theorem c2_fallo_estado_intacto_sin_rollback :
    ∀ (store : Backend.Store) (st : CinemaState) (sesionId : Nat) (email : String),
      (handleConfirmarSeleccion store st sesionId email).errorMsg.isSome = true →
      (handleConfirmarSeleccion store st sesionId email).state = st ∧
      ∃ nuevos, (handleConfirmarSeleccion store st sesionId email).store.tickets
        = store.tickets ++ nuevos := by
  intro store st sesionId email hfail
  by_cases h1 : st.asientosSeleccionados.isEmpty = true
  · refine ⟨by simp [handleConfirmarSeleccion, h1], [], ?_⟩
    simp [handleConfirmarSeleccion, h1]
  · by_cases h2 : (trimStr email).isEmpty = true
    · refine ⟨by simp [handleConfirmarSeleccion, h1, h2], [], ?_⟩
      simp [handleConfirmarSeleccion, h1, h2]
    · obtain ⟨nuevos, hn⟩ :=
        runReservas_solo_crece sesionId (trimStr email) st.asientosSeleccionados store []
      rcases hr : runReservas sesionId (trimStr email) store st.asientosSeleccionados []
        with ⟨store', res⟩
      rw [hr] at hn
      cases res with
      | ok entradas =>
        exfalso
        simp [handleConfirmarSeleccion, h1, h2, hr] at hfail
      | error msg =>
        refine ⟨by simp [handleConfirmarSeleccion, h1, h2, hr], nuevos, ?_⟩
        simpa [handleConfirmarSeleccion, h1, h2, hr] using hn

/-- Claim C2, witness for the amended theorem: the same failing two-seat
batch, showing the untouched client state and the grown store. -/
theorem c2_testigo :
    (handleConfirmarSeleccion
        ⟨[⟨1, 2, 2⟩], [⟨1, 1, "A", 2, "z@z.com", .Reserved⟩]⟩
        ⟨none, none, [⟨"A", 1, .libre⟩, ⟨"A", 2, .libre⟩], []⟩
        1 "x@y.com").state
      = ⟨none, none, [⟨"A", 1, .libre⟩, ⟨"A", 2, .libre⟩], []⟩ ∧
    ∃ nuevos,
      (handleConfirmarSeleccion
          ⟨[⟨1, 2, 2⟩], [⟨1, 1, "A", 2, "z@z.com", .Reserved⟩]⟩
          ⟨none, none, [⟨"A", 1, .libre⟩, ⟨"A", 2, .libre⟩], []⟩
          1 "x@y.com").store.tickets
        = [⟨1, 1, "A", 2, "z@z.com", .Reserved⟩] ++ nuevos :=
  c2_fallo_estado_intacto_sin_rollback
    ⟨[⟨1, 2, 2⟩], [⟨1, 1, "A", 2, "z@z.com", .Reserved⟩]⟩
    ⟨none, none, [⟨"A", 1, .libre⟩, ⟨"A", 2, .libre⟩], []⟩
    1 "x@y.com" (by decide)

/-- Claim C7: row labels are normalized to uppercase on write, round-tripping
through the seat map.  Against a showing with a 3×6 grid and an empty store,
create-ticket(showingId 1, row "a", column 5, email "x@y.com") succeeds with
row "A", and the seat map of that showing reports cell (A,5) as reserved. -/
theorem c7_fila_normalizada_ida_y_vuelta :
    Backend.reserve ⟨[⟨1, 3, 6⟩], []⟩ 1 "a" 5 "x@y.com"
      = .ok (⟨1, 1, "A", 5, "x@y.com", .Reserved⟩,
             ⟨[⟨1, 3, 6⟩], [⟨1, 1, "A", 5, "x@y.com", .Reserved⟩]⟩) ∧
    Backend.estadoCelda ⟨[⟨1, 3, 6⟩], [⟨1, 1, "A", 5, "x@y.com", .Reserved⟩]⟩ 1 "A" 5
      = .reservada ∧
    (getAsientosDeLayout (Backend.mapaAsientos
        ⟨[⟨1, 3, 6⟩], [⟨1, 1, "A", 5, "x@y.com", .Reserved⟩]⟩ ⟨1, 3, 6⟩)).find?
        (fun a => a.fila == "A" && a.numero == 5)
      = some ⟨"A", 5, .reservada⟩ := by
  decide

/- Helper lemmas for the seat-map shape claim. -/

/-- Accumulator form of the seat-collection loop: it concatenates the rows. -/
lemma getAsientosDeLayout_eq_flatten (layout : List (List Asiento)) :
    getAsientosDeLayout layout = layout.flatten := by
  suffices h : ∀ acc, layout.foldl (fun asientos fila => asientos ++ fila) acc
      = acc ++ layout.flatten by
    simpa [getAsientosDeLayout] using h []
  induction layout with
  | nil => intro acc; simp
  | cons fila resto ih =>
    intro acc
    simp only [List.foldl_cons, List.flatten_cons, ih (acc ++ fila), List.append_assoc]

/-- Injectivity of the row labels over the alphabet. -/
lemma filaLabel_inyectiva : ∀ i < 26, ∀ j < 26,
    Backend.filaLabel i = Backend.filaLabel j → i = j := by
  decide

/-- Claim C6: for every Showing with grid (R, C) with alphabetic row labels
(R ≤ 26), the seat-map read consumed by getAsientos returns exactly R×C
cells: the layout is an R-element list of C-element seat rows, the flattened
seat list has length R·C, its (fila, numero) coordinates are pairwise
distinct, and every coordinate of the grid occurs. -/
theorem c6_mapa_exactamente_RxC :
    ∀ (st : Backend.Store) (sh : Backend.Showing), sh.rowCount ≤ 26 →
      (Backend.mapaAsientos st sh).length = sh.rowCount ∧
      (∀ fila ∈ Backend.mapaAsientos st sh, fila.length = sh.columnCount) ∧
      (getAsientosDeLayout (Backend.mapaAsientos st sh)).length
        = sh.rowCount * sh.columnCount ∧
      ((getAsientosDeLayout (Backend.mapaAsientos st sh)).map
        (fun a => (a.fila, a.numero))).Nodup ∧
      (∀ r < sh.rowCount, ∀ c < sh.columnCount,
        (Backend.filaLabel r, c + 1) ∈ (getAsientosDeLayout (Backend.mapaAsientos st sh)).map
          (fun a => (a.fila, a.numero))) := by
  intro st sh hR
  rw [getAsientosDeLayout_eq_flatten]
  have hcoords : ((Backend.mapaAsientos st sh).flatten).map (fun a => (a.fila, a.numero))
      = (List.range sh.rowCount).flatMap (fun r =>
          (List.range sh.columnCount).map (fun c => (Backend.filaLabel r, c + 1))) := by
    simp [Backend.mapaAsientos, List.flatMap, List.map_map, Function.comp_def]
  refine ⟨by simp [Backend.mapaAsientos], ?_, ?_, ?_, ?_⟩
  · intro fila hfila
    rcases List.mem_map.mp hfila with ⟨r, _, rfl⟩
    simp
  · simp [Backend.mapaAsientos, List.length_flatten, List.map_map, Function.comp_def,
      List.map_const', List.sum_replicate, smul_eq_mul, mul_comm]
  · rw [hcoords, List.nodup_flatMap]
    constructor
    · intro r _
      refine List.Nodup.map ?_ (List.nodup_range sh.columnCount)
      intro c1 c2 h
      simpa using congrArg Prod.snd h
    · refine (List.nodup_range sh.rowCount).imp_of_mem ?_
      intro a b ha hb hne
      intro x hxa hxb
      rcases List.mem_map.mp hxa with ⟨c1, _, rfl⟩
      rcases List.mem_map.mp hxb with ⟨c2, _, hx2⟩
      have hlab : Backend.filaLabel b = Backend.filaLabel a := congrArg Prod.fst hx2
      have ha' : a < 26 := lt_of_lt_of_le (List.mem_range.mp ha) hR
      have hb' : b < 26 := lt_of_lt_of_le (List.mem_range.mp hb) hR
      exact hne (filaLabel_inyectiva a ha' b hb' hlab.symm)
  · intro r hr c hc
    rw [hcoords]
    exact List.mem_flatMap.mpr ⟨r, List.mem_range.mpr hr,
      List.mem_map.mpr ⟨c, List.mem_range.mpr hc, rfl⟩⟩

/-- Claim C6, witness: a 2×2 showing over an empty store yields exactly four
cells. -/
theorem c6_testigo :
    (getAsientosDeLayout (Backend.mapaAsientos ⟨[], []⟩ ⟨1, 2, 2⟩)).length = 2 * 2 :=
  (c6_mapa_exactamente_RxC ⟨[], []⟩ ⟨1, 2, 2⟩ (by decide)).2.2.1
